import Mathlib

/-!
Verification development for the egress PostgreSQL client driver.

Shallow embedding of the binary value codecs (src/egress/types.py), the
cursor engine (src/egress/cursor.py) and the connection / transaction /
error classifier (src/egress/connection.py).  Bytes are modelled as
`List Nat` (each entry one octet), Python ints as `Int`, Python `None`
as an explicit constructor, and raised exceptions as `Except` errors.
-/

/-- Error kinds.  The Python builtin exceptions (TypeError, IndexError,
AssertionError, AttributeError, struct.error, ...) are modelled directly.
Modelled from the spec: the DB-API exception taxonomy of the project
`exceptions` module, which is imported by src/egress/cursor.py and
src/egress/connection.py but absent from src/ (spec section 7):
`dbError` stands for the base class `Error`, the remaining constructors
for the named subclasses. -/
inductive PyErr where
  | typeError
  | indexError
  | keyError
  | valueError
  | assertionError
  | attributeError
  | structError
  | unicodeDecodeError
  | recursionError
  | dbError
  | interfaceError
  | databaseError
  | dataError
  | operationalError
  | integrityError
  | internalError
  | programmingError
  | notSupportedError
  deriving DecidableEq, Repr

/-- Big-endian byte list (width `w`) of a natural number, one octet per
entry; mirrors the layout produced by struct.pack with network order. -/
def beBytes : Nat → Nat → List Nat
  | 0, _ => []
  | w + 1, m => (m / 256 ^ w % 256) :: beBytes w m

/-- Recombine a big-endian byte list into a natural number. -/
def beNat (l : List Nat) : Nat :=
  l.foldl (fun a b => a * 256 + b) 0

/-- Two-complement reading of a big-endian byte list as a signed integer,
as struct.unpack does for the signed formats. -/
def unpackSignedBE (bs : List Nat) : Int :=
  let u : Int := beNat bs
  let p : Int := 2 ^ (8 * bs.length)
  if 2 * u ≥ p then u - p else u

/-- Signed 32-bit big-endian value from four octets. -/
def beI32 (a b c d : Nat) : Int :=
  let u : Int := ((a * 256 + b) * 256 + c) * 256 + d
  if 2 * u ≥ 4294967296 then u - 4294967296 else u

/-- struct.unpack for one exact signed big-endian quantity: the buffer
must have exactly the format width, otherwise struct.error. -/
def unpackI16M : List Nat → Option Int
  | [a, b] =>
    let u : Int := a * 256 + b
    some (if 2 * u ≥ 65536 then u - 65536 else u)
  | _ => none

def unpackU16M : List Nat → Option Nat
  | [a, b] => some (a * 256 + b)
  | _ => none

def unpackI32M : List Nat → Option Int
  | [a, b, c, d] => some (beI32 a b c d)
  | _ => none

def unpackI64M : List Nat → Option Int
  | [a, b, c, d, e, f, g, h] =>
    let u : Int := beNat [a, b, c, d, e, f, g, h]
    some (if 2 * u ≥ 18446744073709551616 then u - 18446744073709551616 else u)
  | _ => none

def unpackU64M : List Nat → Option Nat
  | [a, b, c, d, e, f, g, h] => some (beNat [a, b, c, d, e, f, g, h])
  | _ => none

/-- struct.pack with format H: unsigned 16-bit big-endian, struct.error
outside the range. -/
def packU16 (n : Nat) : Except PyErr (List Nat) :=
  if n < 65536 then .ok (beBytes 2 n) else .error .structError

/-- struct.pack with format h: signed 16-bit big-endian. -/
def packI16 (i : Int) : Except PyErr (List Nat) :=
  if -32768 ≤ i ∧ i < 32768 then .ok (beBytes 2 (i % 65536).toNat)
  else .error .structError

/-- struct.pack with format i: signed 32-bit big-endian. -/
def packI32 (i : Int) : Except PyErr (List Nat) :=
  if -2147483648 ≤ i ∧ i < 2147483648 then .ok (beBytes 4 (i % 4294967296).toNat)
  else .error .structError

/-- struct.pack with format q: signed 64-bit big-endian. -/
def packI64 (i : Int) : Except PyErr (List Nat) :=
  if -9223372036854775808 ≤ i ∧ i < 9223372036854775808 then
    .ok (beBytes 8 (i % 18446744073709551616).toNat)
  else .error .structError

/-- Clamp a Python slice index (which may be negative, counting from the
end) into the range 0..len. -/
def pyClampIdx (len : Nat) (i : Int) : Nat :=
  if i < 0 then ((len : Int) + i).toNat else min i.toNat len

/-- Python slice l[a:b] with full clamping semantics. -/
def pySliceI (l : List Nat) (a b : Int) : List Nat :=
  (l.take (pyClampIdx l.length b)).drop (pyClampIdx l.length a)

/-- Python slice l[:e] (take with a possibly negative bound). -/
def pySliceTo (l : List Nat) (e : Int) : List Nat :=
  l.take (pyClampIdx l.length e)

/-- Python slice l[e:] (drop with a possibly negative bound). -/
def pySliceFrom (l : List Nat) (e : Int) : List Nat :=
  l.drop (pyClampIdx l.length e)

/-- Value of a most-significant-first decimal digit list. -/
def digitsToNat (l : List Nat) : Nat :=
  l.foldl (fun a d => a * 10 + d) 0

/-- Little-endian decimal digits, with explicit fuel so that the kernel
can evaluate it (fuel = the number itself always suffices). -/
def natDigitsAux : Nat → Nat → List Nat
  | 0, _ => []
  | fuel + 1, n => if n = 0 then [] else n % 10 :: natDigitsAux fuel (n / 10)

/-- Most-significant-first decimal digits of a natural number; empty for 0. -/
def natDigits (n : Nat) : List Nat :=
  (natDigitsAux n n).reverse

/-- Python format spec {:04d} applied to a nonnegative number: decimal
digits left-padded with zeros to at least four places. -/
def fmt04 (n : Nat) : List Nat :=
  let ds := natDigits n
  List.replicate (4 - ds.length) 0 ++ ds

/-- Python int.bit_length with explicit fuel. -/
def bitLenAux : Nat → Nat → Nat
  | 0, _ => 0
  | fuel + 1, n => if n = 0 then 0 else bitLenAux fuel (n / 2) + 1

/-- Python int.bit_length on the magnitude of an integer. -/
def pyBitLength (n : Nat) : Nat :=
  bitLenAux n n

/-- Flatten a list of byte lists. -/
def concatAll (l : List (List Nat)) : List Nat :=
  l.foldr (fun a b => a ++ b) []

/-- Decimal digit characters of a positive counter value, for building
the replacement text of a placeholder. -/
def numChars (n : Nat) : List Char :=
  (natDigits n).map (fun d => Char.ofNat (48 + d))

/-- Python decimal.Decimal as seen through as_tuple(): a finite value is
(sign, digit tuple, exponent); NaN is kept as its own constructor (its
as_tuple exponent is the string n, which is what makes abs(exponent)
raise TypeError in the encoder). -/
inductive PyDecimal where
  | finite (sign : Bool) (digits : List Nat) (exponent : Int)
  | nan
  deriving DecidableEq, Repr

/-- Python Decimal equality (the == operator): NaN compares unequal to
everything, finite values compare by numeric value.  The comparison is
done by cross-scaling to a common exponent, which avoids rationals. -/
def PyDecimal.eqVal : PyDecimal → PyDecimal → Bool
  | .finite s1 d1 e1, .finite s2 d2 e2 =>
    let m := min e1 e2
    let v1 : Int := (if s1 then -1 else 1) * (digitsToNat d1 : Int) * 10 ^ (e1 - m).toNat
    let v2 : Int := (if s2 then -1 else 1) * (digitsToNat d2 : Int) * 10 ^ (e2 - m).toNat
    v1 == v2
  | _, _ => false

/-- Decoded native Python values produced by the codecs.  Bytes values
keep their octets; a float keeps its IEEE bit pattern (the numeric value
is never interpreted here); date/time values are kept in the canonical
integer forms the source computes them from. -/
inductive PyVal where
  | none
  | bool (b : Bool)
  | int (i : Int)
  | str (s : String)
  | bytes (b : List Nat)
  | decimal (d : PyDecimal)
  | list (l : List PyVal)
  | float32 (bits : Nat)
  | float64 (bits : Nat)
  | pyDate (daysSince2000 : Int)
  | pyTime (hour minute second microsecond : Nat)
  | pyTimedelta (totalMicroseconds : Int)
  | pyDatetime (microsecondsSince2000 : Int)
  | pyUuid (b : List Nat)
  | ipv4 (addr : List Nat)
  | ipv4Net (addr : List Nat) (bits : Nat)
  | ipv6 (addr : List Nat)
  | ipv6Net (addr : List Nat) (bits : Nat)

/-- The classes registered in the BaseType._oid registry of
src/egress/types.py (one constructor per class holding a postgres OID). -/
inductive PgType where
  | boolT        -- BoolType, oid 16
  | binaryT      -- BinaryType, oid 17
  | charT        -- CharType, oid 18
  | nameDataT    -- NameDataType, oid 19
  | longT        -- LongType, oid 20
  | shortIntT    -- ShortIntType, oid 21
  | intT         -- IntType, oid 23
  | stringT      -- StringType, oid 25
  | oidT         -- OidType, oid 26
  | ipv4AddrT    -- IPv4AddressType, oid 650
  | floatT       -- FloatType, oid 700
  | doubleT      -- DoubleType, oid 701
  | unknownT     -- UnknownType, oid 705
  | ipT          -- IPAddressType, oid 869
  | nameArrayT   -- NameArrayType, oid 1003
  | textArrayT   -- TextArray, oid 1009
  | blankPaddedT -- BlankPaddedString, oid 1042
  | varCharT     -- VarCharType, oid 1043
  | dateT        -- DateType, oid 1082
  | timeT        -- TimeOfDayType, oid 1083
  | timestampTzT -- TimestampTzType, oid 1184
  | intervalT    -- IntervalType, oid 1186
  | numericT     -- NumericType, oid 1700
  | uuidT        -- UUIDType, oid 2950
  | jsonbT       -- JsonbType, oid 3802
  deriving DecidableEq, Repr

/-- infer_parser of src/egress/types.py line 98: dictionary lookup of the
OID in BaseType._oid; an unregistered OID raises KeyError (here: none). -/
def inferOidType (oid : Int) : Option PgType :=
  if oid = 16 then some .boolT
  else if oid = 17 then some .binaryT
  else if oid = 18 then some .charT
  else if oid = 19 then some .nameDataT
  else if oid = 20 then some .longT
  else if oid = 21 then some .shortIntT
  else if oid = 23 then some .intT
  else if oid = 25 then some .stringT
  else if oid = 26 then some .oidT
  else if oid = 650 then some .ipv4AddrT
  else if oid = 700 then some .floatT
  else if oid = 701 then some .doubleT
  else if oid = 705 then some .unknownT
  else if oid = 869 then some .ipT
  else if oid = 1003 then some .nameArrayT
  else if oid = 1009 then some .textArrayT
  else if oid = 1042 then some .blankPaddedT
  else if oid = 1043 then some .varCharT
  else if oid = 1082 then some .dateT
  else if oid = 1083 then some .timeT
  else if oid = 1184 then some .timestampTzT
  else if oid = 1186 then some .intervalT
  else if oid = 1700 then some .numericT
  else if oid = 2950 then some .uuidT
  else if oid = 3802 then some .jsonbT
  else Option.none

/-- Strict UTF-8 decoding (Python bytes.decode with the utf-8 codec),
with explicit fuel (the byte count always suffices); rejects overlong
forms, surrogates and out-of-range code points like Python does. -/
def utf8DecodeAux : Nat → List Nat → Option (List Char)
  | _, [] => some []
  | 0, _ :: _ => Option.none
  | fuel + 1, b :: rest =>
    if b < 0x80 then
      (utf8DecodeAux fuel rest).map (Char.ofNat b :: ·)
    else if 0xC2 ≤ b ∧ b ≤ 0xDF then
      match rest with
      | c :: rest2 =>
        if 0x80 ≤ c ∧ c ≤ 0xBF then
          (utf8DecodeAux fuel rest2).map (Char.ofNat ((b - 0xC0) * 64 + (c - 0x80)) :: ·)
        else Option.none
      | _ => Option.none
    else if 0xE0 ≤ b ∧ b ≤ 0xEF then
      match rest with
      | c :: d :: rest2 =>
        let lo := if b = 0xE0 then 0xA0 else 0x80
        let hi := if b = 0xED then 0x9F else 0xBF
        if lo ≤ c ∧ c ≤ hi ∧ 0x80 ≤ d ∧ d ≤ 0xBF then
          (utf8DecodeAux fuel rest2).map
            (Char.ofNat ((b - 0xE0) * 4096 + (c - 0x80) * 64 + (d - 0x80)) :: ·)
        else Option.none
      | _ => Option.none
    else if 0xF0 ≤ b ∧ b ≤ 0xF4 then
      match rest with
      | c :: d :: e :: rest2 =>
        let lo := if b = 0xF0 then 0x90 else 0x80
        let hi := if b = 0xF4 then 0x8F else 0xBF
        if lo ≤ c ∧ c ≤ hi ∧ 0x80 ≤ d ∧ d ≤ 0xBF ∧ 0x80 ≤ e ∧ e ≤ 0xBF then
          (utf8DecodeAux fuel rest2).map
            (Char.ofNat ((b - 0xF0) * 262144 + (c - 0x80) * 4096 + (d - 0x80) * 64 + (e - 0x80)) :: ·)
        else Option.none
      | _ => Option.none
    else Option.none

/-- bytes.decode with utf-8; a decoding failure raises UnicodeDecodeError. -/
def pyUtf8Decode (l : List Nat) : Except PyErr String :=
  match utf8DecodeAux l.length l with
  | some cs => .ok (String.mk cs)
  | Option.none => .error .unicodeDecodeError

/-- str.encode with utf-8. -/
def utf8EncodeChar (c : Char) : List Nat :=
  let n := c.toNat
  if n < 0x80 then [n]
  else if n < 0x800 then [0xC0 + n / 64, 0x80 + n % 64]
  else if n < 0x10000 then [0xE0 + n / 4096, 0x80 + n / 64 % 64, 0x80 + n % 64]
  else [0xF0 + n / 262144, 0x80 + n / 4096 % 64, 0x80 + n / 64 % 64, 0x80 + n % 64]

def utf8Encode (s : String) : List Nat :=
  concatAll (s.data.map utf8EncodeChar)

/-- BaseType.parse (src/egress/types.py lines 133-137): a zero size
returns None, otherwise struct.unpack of value[:size] with the class
format (the unpacker fails with struct.error when the slice length is
not the format width). -/
def BaseType.parse (unpackF : List Nat → Option PyVal) (value : List Nat) (size : Nat) :
    Except PyErr PyVal :=
  if size = 0 then .ok .none
  else
    match unpackF (value.take size) with
    | some v => .ok v
    | Option.none => .error .structError

/-- BoolType (fmt ?, oid 16): one octet, nonzero is True. -/
def BoolType.parse : List Nat → Nat → Except PyErr PyVal :=
  BaseType.parse (fun l =>
    match l with
    | [b] => some (.bool (b ≠ 0))
    | _ => Option.none)

/-- ShortIntType (fmt !h, oid 21). -/
def ShortIntType.parse : List Nat → Nat → Except PyErr PyVal :=
  BaseType.parse (fun l => (unpackI16M l).map .int)

/-- IntType (fmt !i, oid 23). -/
def IntType.parse : List Nat → Nat → Except PyErr PyVal :=
  BaseType.parse (fun l => (unpackI32M l).map .int)

/-- LongType (fmt !q, oid 20) inherits BaseType.parse. -/
def LongType.parse : List Nat → Nat → Except PyErr PyVal :=
  BaseType.parse (fun l => (unpackI64M l).map .int)

/-- OidType (fmt !q, oid 26) inherits BaseType.parse. -/
def OidType.parse : List Nat → Nat → Except PyErr PyVal :=
  BaseType.parse (fun l => (unpackI64M l).map .int)

/-- FloatType (fmt !f, oid 700): the 32-bit pattern is kept as bits. -/
def FloatType.parse : List Nat → Nat → Except PyErr PyVal :=
  BaseType.parse (fun l =>
    match l with
    | [a, b, c, d] => some (.float32 (beNat [a, b, c, d]))
    | _ => Option.none)

/-- DoubleType (fmt !d, oid 701): the 64-bit pattern is kept as bits. -/
def DoubleType.parse : List Nat → Nat → Except PyErr PyVal :=
  BaseType.parse (fun l => (unpackU64M l).map .float64)

/-- BinaryType.parse (oid 17): returns value[:size] unchanged. -/
def BinaryType.parse (value : List Nat) (size : Nat) : Except PyErr PyVal :=
  .ok (.bytes (value.take size))

/-- CharType.parse (oid 18): utf-8 decode of value[:size], with no
zero-size special case (an empty slice decodes to the empty string). -/
def CharType.parse (value : List Nat) (size : Nat) : Except PyErr PyVal :=
  (pyUtf8Decode (value.take size)).map .str

/-- NameDataType.parse (oid 19): None on zero size, else utf-8 decode. -/
def NameDataType.parse (value : List Nat) (size : Nat) : Except PyErr PyVal :=
  if size = 0 then .ok .none
  else (pyUtf8Decode (value.take size)).map .str

/-- StringType.parse (src/egress/types.py lines 225-229, oid 25, also
inherited by BlankPaddedString 1042 and VarCharType 1043): the empty
string on zero size, else utf-8 decode of value[:size]. -/
def StringType.parse (value : List Nat) (size : Nat) : Except PyErr PyVal :=
  if size = 0 then .ok (.str "")
  else (pyUtf8Decode (value.take size)).map .str

/-- UnknownType.parse (oid 705): None on zero size, else utf-8 decode. -/
def UnknownType.parse (value : List Nat) (size : Nat) : Except PyErr PyVal :=
  if size = 0 then .ok .none
  else (pyUtf8Decode (value.take size)).map .str

/-- IPv4AddressType.parse (oid 650, also IPAddressType 869): header of
four octets (family, bits, is_cidr, nb), then the address octets.  The
host-bit validation the ipaddress constructors perform is elided; a
family length other than 4 or 16 falls off the end of the function and
returns None, as in the source. -/
def IPv4AddressType.parse (value : List Nat) (_size : Nat) : Except PyErr PyVal :=
  match value.take 4 with
  | [_fam, bits, _cidr, nb] =>
    if nb = 4 then
      if bits ≠ 0 then .ok (.ipv4Net (pySliceI value 4 (4 + 4)) bits)
      else .ok (.ipv4 (pySliceI value 4 (4 + 4)))
    else if nb = 16 then
      if bits ≠ 0 then .ok (.ipv6Net (pySliceI value 4 (4 + 16)) bits)
      else .ok (.ipv6 (pySliceI value 4 (4 + 16)))
    else .ok .none
  | _ => .error .structError

/-- DateType.parse (oid 1082): a signed 32-bit day count added to
2000-01-01; the date value is kept as that day offset. -/
def DateType.parse (value : List Nat) (size : Nat) : Except PyErr PyVal :=
  if size = 0 then .ok .none
  else
    match unpackI32M (value.take size) with
    | some v => .ok (.pyDate v)
    | Option.none => .error .structError

/-- TimeOfDayType.parse (oid 1083): microseconds since midnight split by
divmod into time components; datetime.time validates the ranges
(ValueError otherwise).  There is no zero-size special case. -/
def TimeOfDayType.parse (value : List Nat) (size : Nat) : Except PyErr PyVal :=
  match unpackI64M (value.take size) with
  | some timeUs =>
    let microsecond := timeUs.fmod 1000000
    let v1 := timeUs.fdiv 1000000
    let second := v1.fmod 60
    let v2 := v1.fdiv 60
    let minute := v2.fmod 60
    let hour := v2.fdiv 60
    if 0 ≤ hour ∧ hour < 24 then
      .ok (.pyTime hour.toNat minute.toNat second.toNat microsecond.toNat)
    else .error .valueError
  | Option.none => .error .structError

/-- IntervalType.parse (oid 1186, fmt !qii): timedelta(days + months*30
days, time_us microseconds), kept as total microseconds. -/
def IntervalType.parse (value : List Nat) (size : Nat) : Except PyErr PyVal :=
  if size = 0 then .ok .none
  else
    match value.take size with
    | [a, b, c, d, e, f, g, h, i1, i2, i3, i4, j1, j2, j3, j4] =>
      match unpackI64M [a, b, c, d, e, f, g, h],
            unpackI32M [i1, i2, i3, i4], unpackI32M [j1, j2, j3, j4] with
      | some timeUs, some days, some months =>
        .ok (.pyTimedelta ((days + months * 30) * 86400000000 + timeUs))
      | _, _, _ => .error .structError
    | _ => .error .structError

/-- TimestampTzType.parse (oid 1184): microseconds since 2000-01-01
added to a naive datetime (the second return statement in the source is
unreachable). -/
def TimestampTzType.parse (value : List Nat) (size : Nat) : Except PyErr PyVal :=
  if size = 0 then .ok .none
  else
    match unpackI64M (value.take size) with
    | some v => .ok (.pyDatetime v)
    | Option.none => .error .structError

/-- UUIDType.parse (oid 2950): uuid.UUID(bytes=value[:size]) requires
exactly 16 octets, raising ValueError otherwise. -/
def UUIDType.parse (value : List Nat) (size : Nat) : Except PyErr PyVal :=
  if (value.take size).length = 16 then .ok (.pyUuid (value.take size))
  else .error .valueError

/-- Python comparison of an int (an indexed byte) with a bytes object:
always False in Python 3, so the json.loads branch of JsonbType.parse is
dead code. -/
def intEqBytes (_n : Nat) (_b : List Nat) : Bool := false

/-- JsonbType.parse (oid 3802): value[0] raises IndexError on an empty
buffer; the comparison of that int with the bytes literal 01 is always
False, so the raw text of value[1:size] is returned undecoded from json. -/
def JsonbType.parse (value : List Nat) (size : Nat) : Except PyErr PyVal :=
  match value with
  | [] => .error .indexError
  | b :: _ =>
    if intEqBytes b [1] then .ok .none
    else (pyUtf8Decode (pySliceI value 1 (size : Int))).map .str

/-- The four-digit groups of the integer part (NumericType.format inner
loop: while digits, take int of the first up-to-four digits).  Note the
grouping starts from the most significant digit, and a final group of
fewer than four digits is not padded. -/
def chunkGroups : List Nat → List Nat
  | [] => []
  | a :: b :: c :: d :: rest => digitsToNat [a, b, c, d] :: chunkGroups rest
  | l => [digitsToNat l]

/-- The four-digit groups of the fractional part (NumericType.format
second loop): each group is right-padded with zero digits to four. -/
def chunkFracGroups : List Nat → List Nat
  | [] => []
  | a :: b :: c :: d :: rest => digitsToNat [a, b, c, d] :: chunkFracGroups rest
  | [a] => [digitsToNat [a, 0, 0, 0]]
  | [a, b] => [digitsToNat [a, b, 0, 0]]
  | [a, b, c] => [digitsToNat [a, b, c, 0]]

/-- Pack a list of unsigned 16-bit digit groups. -/
def packGroups : List Nat → Except PyErr (List Nat)
  | [] => .ok []
  | g :: rest =>
    match packU16 g with
    | .error e => .error e
    | .ok bs =>
      match packGroups rest with
      | .error e => .error e
      | .ok rs => .ok (bs ++ rs)

/-- NumericType.format (src/egress/types.py lines 456-477).  The input
is the as_tuple view of the Decimal.  For NaN the exponent is the string
n and abs(exponent) raises TypeError.  Returns (oid, payload, size).
Note two quirks reproduced from the source: the sign word is 0xC000
(the NaN marker) for negative values, and the weight word is
max(0, weight - 1) where weight counts the integer digit groups. -/
def NumericType.format : PyDecimal → Except PyErr (Nat × List Nat × Nat)
  | .nan => .error .typeError
  | .finite sign digits exponent =>
    let dscale := exponent.natAbs
    let intDigits := if exponent ≠ 0 then pySliceTo digits exponent else digits
    let frac := if exponent ≠ 0 then pySliceFrom digits exponent else []
    let vals := chunkGroups intDigits
    let weight := vals.length
    let allVals := vals ++ chunkFracGroups frac
    match packU16 allVals.length, packI16 (max 0 ((weight : Int) - 1)),
          packU16 (if sign then 0xc000 else 0), packU16 dscale,
          packGroups allVals with
    | .ok h1, .ok h2, .ok h3, .ok h4, .ok body =>
      .ok (1700, h1 ++ h2 ++ h3 ++ h4 ++ body, 8 + 2 * allVals.length)
    | _, _, _, _, _ => .error .structError

/-- Read ndigits unsigned 16-bit digit groups from a buffer whose length
must be exactly twice the count (struct.unpack of the sliced segment). -/
def readU16s : List Nat → Option (List Nat)
  | [] => some []
  | a :: b :: rest => (readU16s rest).map ((a * 256 + b) :: ·)
  | [_] => Option.none

/-- NumericType.parse (src/egress/types.py lines 434-454).  Zero size
returns None; a sign word of 0xC000 returns Decimal NaN before the digit
groups are read; otherwise the decimal string is reconstructed by laying
out the four-digit groups (padded with zero groups while the weight
reaches past them) and inserting the decimal point after group index
weight.  The resulting Decimal keeps all written digits; the constructor
normalisation of leading zeros is irrelevant to value equality. -/
def NumericType.parse (value : List Nat) (size : Nat) : Except PyErr PyVal :=
  if size = 0 then .ok .none
  else
    match value.take 8 with
    | [a, b, c, d, e, f, g, h] =>
      let ndigits := a * 256 + b
      let weight : Int :=
        let u : Int := c * 256 + d
        if 2 * u ≥ 65536 then u - 65536 else u
      let sign := e * 256 + f
      let dscale := g * 256 + h
      let _ := dscale
      if sign = 0xc000 then .ok (.decimal .nan)
      else
        let seg := (value.drop 8).take (2 * ndigits)
        if seg.length ≠ 2 * ndigits then .error .structError
        else
          match readU16s seg with
          | Option.none => .error .structError
          | some groups =>
            let padded := groups ++ List.replicate (weight + 1 - (groups.length : Int)).toNat 0
            let intGroups := if 0 ≤ weight then padded.take (weight.toNat + 1) else padded
            let fracGroups := if 0 ≤ weight then padded.drop (weight.toNat + 1) else []
            let intDs := concatAll (intGroups.map fmt04)
            let fracDs := concatAll (fracGroups.map fmt04)
            .ok (.decimal (.finite (sign ≠ 0) (intDs ++ fracDs) (-(fracDs.length : Int))))
    | _ => .error .structError

/-- LongType.format (src/egress/types.py lines 196-204): the wire type
is chosen by bit length, 2-, 4- or 8-byte big-endian two-complement. -/
def LongType.format (value : Int) : Except PyErr (Nat × List Nat × Nat) :=
  let bits := pyBitLength value.natAbs
  if bits < 16 then
    match packI16 value with
    | .ok bs => .ok (21, bs, 2)
    | .error e => .error e
  else if bits < 32 then
    match packI32 value with
    | .ok bs => .ok (23, bs, 4)
    | .error e => .error e
  else
    match packI64 value with
    | .ok bs => .ok (20, bs, 8)
    | .error e => .error e

/-- Widen an IEEE-754 single bit pattern to the double pattern of the
same value (a Python float is always a double); subnormals are
renormalised through the bit length of the mantissa. -/
def f32to64 (b : Nat) : Nat :=
  let s := b / 2 ^ 31 % 2
  let e := b / 2 ^ 23 % 256
  let m := b % 2 ^ 23
  if e = 255 then s * 2 ^ 63 + 2047 * 2 ^ 52 + m * 2 ^ 29
  else if e = 0 then
    if m = 0 then s * 2 ^ 63
    else
      let lth := pyBitLength m
      s * 2 ^ 63 + (873 + lth) * 2 ^ 52 + (m - 2 ^ (lth - 1)) * 2 ^ (53 - lth)
  else s * 2 ^ 63 + (e + 896) * 2 ^ 52 + m * 2 ^ 29

/-- Python str() rendering used by the textual fallback encoder for
values whose type has no registered formatter (string escaping
subtleties inside list reprs are elided). -/
def pyRepr : PyVal → String
  | .none => "None"
  | .bool b => if b then "True" else "False"
  | .int i => toString i
  | .str s => s
  | .bytes _ => "bytes"
  | .decimal _ => "Decimal"
  | .list _ => "list"
  | .float32 _ => "float"
  | .float64 _ => "float"
  | .pyDate d => toString d
  | .pyTime h m s us => toString (((h * 60 + m) * 60 + s) * 1000000 + us)
  | .pyTimedelta us => toString us
  | .pyDatetime us => toString us
  | .pyUuid _ => "UUID"
  | .ipv4 _ => "IPv4Address"
  | .ipv4Net _ _ => "IPv4Network"
  | .ipv6 _ => "IPv6Address"
  | .ipv6Net _ _ => "IPv6Network"

/-- DateType.format: pack !i of the day offset from 2000-01-01. -/
def DateType.format (days : Int) : Except PyErr (Nat × List Nat × Nat) :=
  match packI32 days with
  | .ok bs => .ok (1082, bs, 4)
  | .error e => .error e

/-- TimeOfDayType.format: microseconds since midnight packed as !q. -/
def TimeOfDayType.format (h m s us : Nat) : Except PyErr (Nat × List Nat × Nat) :=
  match packI64 (((h * 60 + m) * 60 + s) * 1000000 + us : Nat) with
  | .ok bs => .ok (1083, bs, 8)
  | .error e => .error e

/-- IntervalType.format: divmod(value.days, 30) into months and days,
the sub-day remainder into microseconds, packed as !qii. -/
def IntervalType.format (totalUs : Int) : Except PyErr (Nat × List Nat × Nat) :=
  let dys := totalUs.fdiv 86400000000
  let usec := totalUs.fmod 86400000000
  let months := dys.fdiv 30
  let days := dys.fmod 30
  match packI64 usec, packI32 days, packI32 months with
  | .ok b1, .ok b2, .ok b3 => .ok (1186, b1 ++ b2 ++ b3, 16)
  | _, _, _ => .error .structError

/-- TimestampTzType.format: microseconds since 2000-01-01 packed as !q
(the float rounding of total_seconds in the source is elided: the
microsecond count is taken exactly). -/
def TimestampTzType.format (us : Int) : Except PyErr (Nat × List Nat × Nat) :=
  match packI64 us with
  | .ok bs => .ok (1184, bs, 8)
  | .error e => .error e

/-- format_type (src/egress/types.py lines 105-110): dispatch on the
Python type of the value through the BaseType._type registry, falling
back to a textual guess-this encoding for unregistered types; a
registered formatter result is extended with binary format flag 1.
Returns (oid, payload or None, length, format). -/
def formatTypeM : PyVal → Except PyErr (Nat × Option (List Nat) × Nat × Nat)
  | .none => .ok (0, Option.none, 0, 1)                       -- NoneType.format
  | .bool b => .ok (16, some [if b then 1 else 0], 1, 1)      -- BoolType via BaseType.format
  | .int v =>                                                 -- LongType.format
    match LongType.format v with
    | .ok (oid, bs, n) => .ok (oid, some bs, n, 1)
    | .error e => .error e
  | .bytes bs => .ok (17, some bs, bs.length, 1)              -- BinaryType.format
  | .decimal d =>                                             -- NumericType.format
    match NumericType.format d with
    | .ok (oid, bs, n) => .ok (oid, some bs, n, 1)
    | .error e => .error e
  | .float32 bits =>                                          -- float is registered to DoubleType
    .ok (701, some (beBytes 8 (f32to64 bits)), 8, 1)
  | .float64 bits => .ok (701, some (beBytes 8 bits), 8, 1)
  | .pyDate d =>
    match DateType.format d with
    | .ok (oid, bs, n) => .ok (oid, some bs, n, 1)
    | .error e => .error e
  | .pyTime h m s us =>
    match TimeOfDayType.format h m s us with
    | .ok (oid, bs, n) => .ok (oid, some bs, n, 1)
    | .error e => .error e
  | .pyTimedelta us =>
    match IntervalType.format us with
    | .ok (oid, bs, n) => .ok (oid, some bs, n, 1)
    | .error e => .error e
  | .pyDatetime us =>
    match TimestampTzType.format us with
    | .ok (oid, bs, n) => .ok (oid, some bs, n, 1)
    | .error e => .error e
  | .pyUuid bs => .ok (2950, some bs, 16, 1)                  -- UUIDType.format
  | .ipv4 _ => .error .structError     -- BaseType.format with empty fmt: struct.error
  | .ipv4Net _ _ => .error .structError
  | .ipv6 _ => .error .structError
  | .ipv6Net _ _ => .error .structError
  | v => .ok (0, some (utf8Encode (pyRepr v)), 0, 0)          -- textual fallback (str, list)

/-- Number of positional parameters each registered parse function is
defined with in src/egress/types.py (the bound class argument of a
classmethod excluded): every one of them takes (value, size). -/
def parseParamCount : PgType → Nat
  | .boolT => 2         -- BaseType.parse(cls, value, size)
  | .binaryT => 2       -- BinaryType.parse(value, size)
  | .charT => 2         -- CharType.parse(value, size)
  | .nameDataT => 2     -- NameDataType.parse(value, size)
  | .longT => 2         -- BaseType.parse
  | .shortIntT => 2     -- BaseType.parse
  | .intT => 2          -- BaseType.parse
  | .stringT => 2       -- StringType.parse(value, size)
  | .oidT => 2          -- BaseType.parse
  | .ipv4AddrT => 2     -- IPv4AddressType.parse(value, size)
  | .floatT => 2        -- BaseType.parse
  | .doubleT => 2       -- BaseType.parse
  | .unknownT => 2      -- UnknownType.parse(value, size)
  | .ipT => 2           -- IPv4AddressType.parse
  | .nameArrayT => 2    -- ArrayType.parse(value, size)
  | .textArrayT => 2    -- ArrayType.parse(value, size)
  | .blankPaddedT => 2  -- StringType.parse
  | .varCharT => 2      -- StringType.parse
  | .dateT => 2         -- DateType.parse(cls, value, size)
  | .timeT => 2         -- TimeOfDayType.parse(cls, value, size)
  | .timestampTzT => 2  -- TimestampTzType.parse(cls, value, size)
  | .intervalT => 2     -- IntervalType.parse(cls, value, size)
  | .numericT => 2      -- NumericType.parse(value, size)
  | .uuidT => 2         -- UUIDType.parse(value, size)
  | .jsonbT => 2        -- JsonbType.parse(value, size)

/-- unpack !iii of value[:12]: the array header (ndim, flags,
element_type). -/
def arrayHeader (value : List Nat) : Option (Int × Int × Int) :=
  match value.take 12 with
  | [a0, a1, a2, a3, b0, b1, b2, b3, c0, c1, c2, c3] =>
    some (beI32 a0 a1 a2 a3, beI32 b0 b1 b2 b3, beI32 c0 c1 c2 c3)
  | _ => Option.none

/-- The ndim iterations of the dim_info loop of ArrayType.parse: each
reads an !ii pair at the running offset. -/
def readDimInfo : Nat → Nat → List Nat → Option (List (Int × Int) × Nat)
  | 0, offs, _ => some ([], offs)
  | k + 1, offs, value =>
    match (value.drop offs).take 8 with
    | [a0, a1, a2, a3, b0, b1, b2, b3] =>
      match readDimInfo k (offs + 8) value with
      | some (rest, offs2) => some ((beI32 a0 a1 a2 a3, beI32 b0 b1 b2 b3) :: rest, offs2)
      | Option.none => Option.none
    | _ => Option.none

/-- The element loop of ArrayType.parse: `k` remaining iterations of
range(lower, upper+1); each reads an !i length prefix, appends None when
it is -1, otherwise decodes the sliced element with the parser
inferred for the element type.  Note the source passes the whole-array
`size` argument (not the element length) to the element parser. -/
def readElemsK (parseEl : List Nat → Nat → Except PyErr PyVal) :
    Nat → Int → List Nat → Nat → Except PyErr (List PyVal)
  | 0, _, _, _ => .ok []
  | k + 1, offs, value, size =>
    match unpackI32M (pySliceI value offs (offs + 4)) with
    | Option.none => .error .structError
    | some elSize =>
      if elSize = -1 then
        match readElemsK parseEl k (offs + 4) value size with
        | .ok rest => .ok (.none :: rest)
        | .error e => .error e
      else
        match parseEl (pySliceI value (offs + 4) (offs + 4 + elSize)) size with
        | .error e => .error e
        | .ok v =>
          match readElemsK parseEl k (offs + 4 + elSize) value size with
          | .ok rest => .ok (v :: rest)
          | .error e => .error e

/-- ArrayType.parse body (src/egress/types.py lines 299-324),
parameterised by the recursive dispatch used for elements: zero size
gives an empty list; the header and ndim dim_info pairs are read; the
assert rejects every ndim other than 1 with AssertionError; the element
parser is inferred from the element type OID (KeyError when
unregistered); then the elements are read over
range(dim_info[0][1], dim_info[0][0] + 1). -/
def arrayParseBody (rec : PgType → List Nat → Nat → Except PyErr PyVal)
    (value : List Nat) (size : Nat) : Except PyErr PyVal :=
  if size = 0 then .ok (.list [])
  else
    match arrayHeader value with
    | Option.none => .error .structError
    | some (ndim, _flags, elemOid) =>
      match readDimInfo ndim.toNat 12 value with
      | Option.none => .error .structError
      | some (dims, offs) =>
        if ndim ≠ 1 then .error .assertionError
        else
          match inferOidType elemOid with
          | Option.none => .error .keyError
          | some cast =>
            match dims with
            | (first, second) :: _ =>
              match readElemsK (rec cast) (first + 1 - second).toNat (offs : Int) value size with
              | .ok vs => .ok (.list vs)
              | .error e => .error e
            | [] => .error .indexError

/-- One dispatch step through the parse registry, parameterised by the
recursive dispatch used for array elements. -/
def castParseStep (rec : PgType → List Nat → Nat → Except PyErr PyVal) :
    PgType → List Nat → Nat → Except PyErr PyVal
  | .boolT => BoolType.parse
  | .binaryT => BinaryType.parse
  | .charT => CharType.parse
  | .nameDataT => NameDataType.parse
  | .longT => LongType.parse
  | .shortIntT => ShortIntType.parse
  | .intT => IntType.parse
  | .stringT => StringType.parse
  | .oidT => OidType.parse
  | .ipv4AddrT => IPv4AddressType.parse
  | .floatT => FloatType.parse
  | .doubleT => DoubleType.parse
  | .unknownT => UnknownType.parse
  | .ipT => IPv4AddressType.parse
  | .nameArrayT => arrayParseBody rec
  | .textArrayT => arrayParseBody rec
  | .blankPaddedT => StringType.parse
  | .varCharT => StringType.parse
  | .dateT => DateType.parse
  | .timeT => TimeOfDayType.parse
  | .timestampTzT => TimestampTzType.parse
  | .intervalT => IntervalType.parse
  | .numericT => NumericType.parse
  | .uuidT => UUIDType.parse
  | .jsonbT => JsonbType.parse

/-- Fuelled parse dispatch: the fuel bounds the array nesting depth, as
the Python recursion limit does (RecursionError on exhaustion). -/
def castParseF : Nat → PgType → List Nat → Nat → Except PyErr PyVal
  | 0 => fun _ _ _ => .error .recursionError
  | fuel + 1 => castParseStep (castParseF fuel)

/-- ArrayType.parse entry point: the buffer length is always enough fuel
for the nesting (each level consumes a 12-byte header). -/
def ArrayType.parse (value : List Nat) (size : Nat) : Except PyErr PyVal :=
  arrayParseBody (castParseF value.length) value size

/-- The cell decode step of Cursor.fetchone (src/egress/cursor.py lines
330-338): a cell whose raw value is empty and whose out-of-band is-null
flag is set becomes None without any parse call; every other cell is
decoded by calling desc.cast_func.parse(value, length, tzinfo) with
three positional arguments — a Python function defined with two
positional parameters raises TypeError on such a call, so the dispatch
only happens when the registered arity is three. -/
def fetchoneCell (t : PgType) (val : List Nat) (vlen : Nat) (isnull : Bool) :
    Except PyErr PyVal :=
  if val = [] ∧ isnull = true then .ok .none
  else if parseParamCount t = 3 then castParseF (val.length + 1) t val vlen
  else .error .typeError

/-- The re.sub pass of Cursor.execute (src/egress/cursor.py lines
221-225): each occurrence of percent-s not preceded by a percent sign is
replaced, scanning left to right, by a dollar marker numbered from 1;
`prev` is the character before the current position in the original
text. -/
def subPctS : List Char → Option Char → Nat → List Char
  | [], _, _ => []
  | '%' :: 's' :: rest, prev, n =>
    if prev = some '%' then '%' :: subPctS ('s' :: rest) (some '%') n
    else ('$' :: numChars n) ++ subPctS rest (some 's') (n + 1)
  | c :: rest, _, n => c :: subPctS rest (some c) n

/-- str.replace of a doubled percent sign by a single one, left to
right, non-overlapping (src/egress/cursor.py line 226). -/
def replacePctPct : List Char → List Char
  | '%' :: '%' :: rest => '%' :: replacePctPct rest
  | c :: rest => c :: replacePctPct rest
  | [] => []

/-- The full placeholder translation of Cursor.execute. -/
def translatePlaceholders (s : String) : String :=
  String.mk (replacePctPct (subPctS s.data Option.none 1))

/-- PARAM_RE.findall: every non-overlapping occurrence of a dollar sign
followed by a maximal nonempty digit run, scanned left to right,
returning the numeric values.  The accumulator holds a partially read
number; the flag records whether the previous character was a dollar
sign not yet followed by a digit. -/
def scanNums : List Char → Option Nat → Bool → List Nat
  | [], some n, _ => [n]
  | [], Option.none, _ => []
  | c :: rest, some n, _ =>
    if c.isDigit then scanNums rest (some (n * 10 + (c.toNat - 48))) false
    else n :: scanNums rest Option.none (c = '$')
  | c :: rest, Option.none, true =>
    if c.isDigit then scanNums rest (some (c.toNat - 48)) false
    else scanNums rest Option.none (c = '$')
  | c :: rest, Option.none, false => scanNums rest Option.none (c = '$')

/-- The dollar-number list of a translated statement. -/
def placeholdersOf (s : String) : List Nat :=
  scanNums s.data Option.none false

/-- Python list indexing with negative wrap-around; None is IndexError. -/
def pyListIndex (l : List PyVal) (i : Int) : Option PyVal :=
  if 0 ≤ i then l.get? i.toNat
  else if 0 ≤ (l.length : Int) + i then l.get? ((l.length : Int) + i).toNat
  else Option.none

/-- The transaction status the driver primitive reports
(libpq PQTRANS constants, src/egress/libpq.py lines 43-47). -/
inductive TxnStatus where
  | idle
  | active
  | intrans
  | inerror
  | unknown
  deriving DecidableEq, Repr

/-- Result statuses of the driver primitive (libpq PGRES constants,
src/egress/libpq.py lines 25-38). -/
inductive PGResStatus where
  | emptyQuery
  | commandOk
  | tuplesOk
  | copyOut
  | copyIn
  | badResponse
  | nonfatalError
  | fatalError
  | copyBoth
  | singleTuple
  deriving DecidableEq, Repr

/-- Observable events at the driver boundary: a submitted command text,
the close of a registered cursor, and the release (finish) of the
driver handle. -/
inductive Event where
  | cmd (text : String)
  | closedCursor (cid : Nat)
  | finish
  deriving DecidableEq, Repr

/-- Connection state: whether the driver handle is still held
(self.conn of the Connection), the autocommit flag, the server-side
transaction status, the registered cursor ids, and the event trace. -/
structure ConnState where
  handle : Bool
  autocommit : Bool
  txn : TxnStatus
  cursors : List Nat
  log : List Event
  deriving DecidableEq, Repr

/-- Modelled from the spec: the transaction-status transitions of the
driver primitive (spec sections 3 and 6) for successfully executed
commands — the transport itself is the out-of-scope libpq layer.  BEGIN
enters a transaction block, COMMIT and ROLLBACK leave it, and any other
successful statement keeps the block it runs in (a statement outside a
block is autocommitted by the server and leaves the connection idle). -/
def driverTxnAfter (t : TxnStatus) (cmd : String) : TxnStatus :=
  if cmd = "BEGIN" then .intrans
  else if cmd = "COMMIT" ∨ cmd = "ROLLBACK" then .idle
  else t

/-- Submit one command to the driver primitive and record it. -/
def connCmd (s : ConnState) (cmd : String) : ConnState :=
  { s with txn := driverTxnAfter s.txn cmd, log := s.log ++ [.cmd cmd] }

/-- Connection.commit (src/egress/connection.py lines 126-139):
requires_open raises the base Error on a released handle; a COMMIT is
submitted only when the transaction status is not idle. -/
def Connection.commitM (s : ConnState) : ConnState × Option PyErr :=
  if s.handle = false then (s, some .dbError)
  else if s.txn ≠ .idle then (connCmd s "COMMIT", Option.none)
  else (s, Option.none)

/-- Connection.rollback (src/egress/connection.py lines 141-154). -/
def Connection.rollbackM (s : ConnState) : ConnState × Option PyErr :=
  if s.handle = false then (s, some .dbError)
  else if s.txn ≠ .idle then (connCmd s "ROLLBACK", Option.none)
  else (s, Option.none)

/-- Connection.close (src/egress/connection.py lines 106-124): every
registered cursor is closed first (each removing itself from the list);
then, if the transaction status is not idle, rollback() submits a
ROLLBACK; finally the driver handle is finished and dropped.  The
access to _in_txn raises the base Error when the handle is already
gone. -/
def Connection.closeM (s : ConnState) : ConnState × Option PyErr :=
  let s1 : ConnState :=
    { s with cursors := [], log := s.log ++ s.cursors.map Event.closedCursor }
  if s1.handle = false then (s1, some .dbError)
  else
    let s2 := if s1.txn = .idle then s1 else (Connection.rollbackM s1).1
    ({ s2 with handle := false, log := s2.log ++ [.finish] }, Option.none)

/-- A result handle as the cursor consumes it: the status, the rows
(each cell carrying its raw octets, reported length and is-null flag),
the textual affected-row count of a command (None when empty), and the
per-column inferred parsers. -/
structure ResultData where
  status : PGResStatus
  rows : List (List (List Nat × Nat × Bool))
  cmdTuples : Option Nat
  types : List PgType
  deriving DecidableEq, Repr

/-- Cursor state: the connection back-reference (None once closed), the
registration id, the held result, the row index, the rowcount and the
column parsers of the current description. -/
structure CursorSt where
  conn : Option ConnState
  cid : Nat
  result : Option ResultData
  resultrow : Int
  rowcount : Option Int
  desc : List PgType
  deriving DecidableEq, Repr

/-- Cursor._set_result (src/egress/cursor.py lines 53-109): stores the
result, computes the rowcount (the command tuple count for COMMAND_OK,
-1 when that is empty; the tuple count for TUPLES_OK; otherwise left
None by the preceding cleanup) and rebuilds the description. -/
def setResult (c : CursorSt) (res : ResultData) : CursorSt :=
  { c with
    result := some res
    resultrow := -1
    rowcount :=
      match res.status with
      | .commandOk => some (match res.cmdTuples with | some n => (n : Int) | Option.none => -1)
      | .tuplesOk => some (res.rows.length : Int)
      | _ => Option.none
    desc := res.types }

/-- Cursor.close (src/egress/cursor.py lines 181-192): cleanup drops the
result, rowcount and description; the cursor removes itself from its
connection and detaches.  Returns the updated connection when one was
attached. -/
def Cursor.closeM (c : CursorSt) : CursorSt × Option ConnState :=
  match c.conn with
  | some s =>
    ({ c with result := Option.none, rowcount := Option.none, desc := [], conn := Option.none },
     some { s with cursors := s.cursors.erase c.cid })
  | Option.none =>
    ({ c with result := Option.none, rowcount := Option.none, desc := [] }, Option.none)

/-- The tail of Cursor.execute after parameter validation and encoding:
interpolate the debug query text (PARAM_RE.sub indexes the parameter
list, raising IndexError when a referenced parameter is missing), apply
the implicit-BEGIN rule, and submit the translated statement.  An
AttributeError models attribute access on a detached cursor (conn is
None) or a released driver handle used directly by exec_params. -/
def executeTail (c : CursorSt) (translated : String) (nums : List Nat)
    (parameters : List PyVal) (res : ResultData) : CursorSt × Option PyErr :=
  if ¬ nums.all (fun n => (pyListIndex parameters ((n : Int) - 1)).isSome) then
    (c, some .indexError)
  else
    match c.conn with
    | Option.none => (c, some .attributeError)
    | some s =>
      if s.autocommit then
        if s.handle then (setResult { c with conn := some (connCmd s translated) } res, Option.none)
        else (c, some .attributeError)
      else if s.handle = false then (c, some .dbError)
      else if s.txn = .idle then
        (setResult { c with conn := some (connCmd (connCmd s "BEGIN") translated) } res, Option.none)
      else (setResult { c with conn := some (connCmd s translated) } res, Option.none)

/-- Map the parameter encoder over the parameters (the loop filling
paramTypes/paramValues/paramLengths/paramFormats). -/
def mapFormat : List PyVal → Except PyErr (List (Nat × Option (List Nat) × Nat × Nat))
  | [] => .ok []
  | v :: rest =>
    match formatTypeM v with
    | .error e => .error e
    | .ok t =>
      match mapFormat rest with
      | .error e => .error e
      | .ok ts => .ok (t :: ts)

/-- Cursor.execute (src/egress/cursor.py lines 194-278): translate the
placeholders, count the dollar markers of the translated text, and only
when a nonempty parameter sequence was supplied compare its length with
that count (raising the parameter-count InterfaceError on mismatch) and
encode the parameters; then run the interpolation / transaction /
submission tail.  The driver result for the submitted statement is
passed in as `res` (spec section 6: ExecuteParams returns a result
handle); every submitted command is assumed to succeed. -/
def Cursor.executeM (c : CursorSt) (operation : String) (parameters : List PyVal)
    (res : ResultData) : CursorSt × Option PyErr :=
  let translated := translatePlaceholders operation
  let nums := placeholdersOf translated
  match parameters with
  | [] => executeTail c translated nums [] res
  | _ :: _ =>
    if parameters.length ≠ nums.length then (c, some .interfaceError)
    else
      match mapFormat parameters with
      | .error e => (c, some e)
      | .ok _ => executeTail c translated nums parameters res

/-- Decode one fetched row: cell by cell along the description. -/
def decodeRow : List PgType → List (List Nat × Nat × Bool) → Except PyErr (List PyVal)
  | [], _ => .ok []
  | _ :: _, [] => .error .indexError
  | t :: ts, cell :: cells =>
    match fetchoneCell t cell.1 cell.2.1 cell.2.2 with
    | .error e => .error e
    | .ok v =>
      match decodeRow ts cells with
      | .error e => .error e
      | .ok vs => .ok (v :: vs)

/-- Cursor.fetchone (src/egress/cursor.py lines 311-339): with no held
result it returns None silently; otherwise the row index advances, the
result is freed and None returned at exhaustion (comparing the index
with a never-set rowcount of None raises TypeError), and otherwise the
row cells are decoded. -/
def Cursor.fetchoneM (c : CursorSt) : CursorSt × Except PyErr (Option (List PyVal)) :=
  match c.result with
  | Option.none => (c, .ok Option.none)
  | some res =>
    let c1 := { c with resultrow := c.resultrow + 1 }
    match c1.rowcount with
    | Option.none => (c1, .error .typeError)
    | some rc =>
      if rc ≤ c1.resultrow then ({ c1 with result := Option.none }, .ok Option.none)
      else
        match decodeRow c1.desc (res.rows.getD c1.resultrow.toNat []) with
        | .error e => (c1, .error e)
        | .ok row => (c1, .ok (some row))

/-- EXC_MAP (src/egress/connection.py lines 10-79): SQLSTATE class (the
first two characters) to exception class.  Note the last entry really
has the single-character key X in the source, so the class XX is not
matched by the two-character lookup and falls back to DatabaseError. -/
def EXC_MAP : List (String × PyErr) :=
  [("0A", .notSupportedError),
   ("21", .programmingError),
   ("22", .dataError),
   ("23", .integrityError),
   ("24", .internalError),
   ("25", .internalError),
   ("26", .operationalError),
   ("27", .operationalError),
   ("28", .operationalError),
   ("2B", .internalError),
   ("2D", .internalError),
   ("2F", .internalError),
   ("34", .operationalError),
   ("38", .internalError),
   ("39", .internalError),
   ("3B", .internalError),
   ("3D", .programmingError),
   ("3F", .programmingError),
   ("40", .programmingError),
   ("42", .programmingError),
   ("44", .programmingError),
   ("53", .operationalError),
   ("54", .operationalError),
   ("55", .operationalError),
   ("57", .operationalError),
   ("58", .operationalError),
   ("F0", .internalError),
   ("P0", .internalError),
   ("X", .internalError)]

/-- The exception class picked for a fatal result: EXC_MAP.get(code[:2],
DatabaseError) when the SQLSTATE diagnostic is present and nonempty
(an absent or empty code is falsy), DatabaseError otherwise. -/
def classifyError (sqlstate : Option String) : PyErr :=
  match sqlstate with
  | Option.none => .databaseError
  | some code =>
    if code = "" then .databaseError
    else
      match EXC_MAP.lookup (String.mk (code.data.take 2)) with
      | some e => e
      | Option.none => .databaseError

/-- Connection._check_conn_status (src/egress/connection.py lines
177-183): DatabaseError unless the driver reports CONNECTION_OK. -/
def checkConnStatus (connOk : Bool) : Option PyErr :=
  if connOk then Option.none else some .databaseError

/-- Connection._check_cmd_result (src/egress/connection.py lines
185-202): COMMAND_OK and TUPLES_OK only re-check the connection status;
a NONFATAL_ERROR is logged (elided) and also only re-checks the
connection status; every other status raises the exception class chosen
from the SQLSTATE diagnostic. -/
def checkCmdResult (connOk : Bool) (status : PGResStatus) (sqlstate : Option String) :
    Option PyErr :=
  match status with
  | .commandOk => checkConnStatus connOk
  | .tuplesOk => checkConnStatus connOk
  | .nonfatalError => checkConnStatus connOk
  | _ => some (classifyError sqlstate)

/-- An empty successful result handle used where a driver reply is
needed but its content is irrelevant. -/
def emptyRes : ResultData :=
  { status := .tuplesOk, rows := [], cmdTuples := Option.none, types := [] }

/-- An open idle connection with autocommit off. -/
def connIdle : ConnState :=
  { handle := true, autocommit := false, txn := .idle, cursors := [0], log := [] }

/-- An open connection with autocommit on. -/
def connAuto : ConnState :=
  { handle := true, autocommit := true, txn := .idle, cursors := [0], log := [] }

/-- An open connection inside a transaction block with two registered
cursors. -/
def connInTx : ConnState :=
  { handle := true, autocommit := false, txn := .intrans, cursors := [3, 7],
    log := [.cmd "BEGIN"] }

/-- A connection whose driver handle has been released. -/
def connReleased : ConnState :=
  { handle := false, autocommit := false, txn := .idle, cursors := [], log := [] }

/-- An open cursor on the idle connection. -/
def curIdle : CursorSt :=
  { conn := some connIdle, cid := 0, result := Option.none, resultrow := -1,
    rowcount := Option.none, desc := [] }

/-- An open cursor on the autocommit connection, holding a result. -/
def curAuto : CursorSt :=
  { conn := some connAuto, cid := 0,
    result := some { status := .tuplesOk, rows := [[([0, 0, 0, 1], 4, false)]],
                     cmdTuples := Option.none, types := [.intT] },
    resultrow := -1, rowcount := some 1, desc := [.intT] }

/-- A closed cursor: detached from its connection, holding no result. -/
def curClosed : CursorSt :=
  { conn := Option.none, cid := 0, result := Option.none, resultrow := -1,
    rowcount := Option.none, desc := [] }

theorem bitLenAux_le : ∀ (fuel n k : Nat), n ≤ fuel → (bitLenAux fuel n ≤ k ↔ n < 2 ^ k) := by
  intro fuel
  induction fuel with
  | zero =>
    intro n k h
    have hn : n = 0 := Nat.le_zero.mp h
    subst hn
    simp [bitLenAux, Nat.pow_pos]
  | succ fuel ih =>
    intro n k h
    by_cases hn : n = 0
    · subst hn
      simp [bitLenAux, Nat.pow_pos]
    · rw [bitLenAux]
      simp only [hn, if_false]
      cases k with
      | zero =>
        simp only [Nat.pow_zero]
        omega
      | succ k =>
        have hfuel : n / 2 ≤ fuel := by omega
        have := ih (n / 2) k hfuel
        have hp : 2 ^ (k + 1) = 2 * 2 ^ k := by ring
        omega

/-- Python bit_length characterisation: at most k bits exactly when the
number is below 2 to the k. -/
theorem pyBitLength_le (n k : Nat) : pyBitLength n ≤ k ↔ n < 2 ^ k :=
  bitLenAux_le n n k le_rfl

/-- C1: the numeric codec does not round-trip.  Encoding
Decimal(-0.0001) writes the sign word 0xC000 — the NaN marker of the
codec format — so decoding the encoding yields Decimal NaN, which is
not equal (Python ==) to the original; encoding Decimal NaN raises
TypeError (abs of the string exponent) instead of producing a NaN
payload.  The positive example Decimal(1000.02) does round-trip to an
equal value. -/
theorem c1_numeric_roundtrip_bug :
    NumericType.format (.finite true [1] (-4)) =
      .ok (1700, [0, 1, 0, 0, 192, 0, 0, 4, 3, 232], 10) ∧
    NumericType.parse [0, 1, 0, 0, 192, 0, 0, 4, 3, 232] 10 = .ok (.decimal .nan) ∧
    PyDecimal.eqVal .nan (.finite true [1] (-4)) = false ∧
    NumericType.format .nan = .error .typeError ∧
    NumericType.format (.finite false [1, 0, 0, 0, 0, 2] (-2)) =
      .ok (1700, [0, 2, 0, 0, 0, 0, 0, 2, 3, 232, 0, 200], 12) ∧
    NumericType.parse [0, 2, 0, 0, 0, 0, 0, 2, 3, 232, 0, 200] 12 =
      .ok (.decimal (.finite false [1, 0, 0, 0, 0, 2, 0, 0] (-4))) ∧
    PyDecimal.eqVal (.finite false [1, 0, 0, 0, 0, 2, 0, 0] (-4))
      (.finite false [1, 0, 0, 0, 0, 2] (-2)) = true :=
  ⟨rfl, rfl, rfl, rfl, rfl, rfl, rfl⟩

/-- C2 (counterexample): decoding a zero-length non-null int4 field
returns None, not the zero value of the type. -/
theorem c2_counterexample :
    IntType.parse [] 0 = .ok PyVal.none ∧
    (Except.ok PyVal.none : Except PyErr PyVal) ≠ .ok (PyVal.int 0) :=
  ⟨rfl, by simp⟩

/-- C2 (amended): decoding a zero-length, non-null field with the
fixed-width bool/int2/int4/int8 codecs returns None (the null marker),
the variable-length text codec returns the empty string, and a SQL NULL
cell — empty raw value with the out-of-band is-null flag set — bypasses
decode entirely and yields the null marker. -/
theorem c2_zero_length :
    (∀ v : List Nat, BoolType.parse v 0 = .ok .none) ∧
    (∀ v : List Nat, ShortIntType.parse v 0 = .ok .none) ∧
    (∀ v : List Nat, IntType.parse v 0 = .ok .none) ∧
    (∀ v : List Nat, LongType.parse v 0 = .ok .none) ∧
    (∀ v : List Nat, StringType.parse v 0 = .ok (.str "")) ∧
    (∀ (t : PgType) (vlen : Nat), fetchoneCell t [] vlen true = .ok .none) :=
  ⟨fun _ => rfl, fun _ => rfl, fun _ => rfl, fun _ => rfl, fun _ => rfl,
   fun _ _ => rfl⟩

/-- C9: every parse function of the registry is defined with exactly two
positional parameters, while fetchone calls it with three (value,
length, tzinfo); hence every non-null decoded cell raises TypeError
instead of producing the value. -/
theorem c9_parse_arity :
    (∀ t : PgType, parseParamCount t = 2) ∧
    (∀ (t : PgType) (val : List Nat) (vlen : Nat) (isnull : Bool),
      ¬(val = [] ∧ isnull = true) →
      fetchoneCell t val vlen isnull = .error .typeError) := by
  refine ⟨fun t => by cases t <;> rfl, fun t val vlen isnull h => ?_⟩
  have h2 : parseParamCount t = 2 := by cases t <;> rfl
  simp [fetchoneCell, h, h2]

theorem c9_witness :
    fetchoneCell .intT [0, 0, 0, 1] 4 false = .error .typeError :=
  c9_parse_arity.2 .intT [0, 0, 0, 1] 4 false (by simp)

/-- C6 (counterexample): a result with the EMPTY_QUERY status — which
is not the fatal-error status — also raises (the generic DatabaseError,
its SQLSTATE being absent), so raising is not exactly the fatal case. -/
theorem c6_counterexample :
    checkCmdResult true .emptyQuery Option.none = some PyErr.databaseError ∧
    PGResStatus.emptyQuery ≠ PGResStatus.fatalError :=
  ⟨rfl, by decide⟩

/-- C6 (amended): checking a command result raises exactly when the
status is neither COMMAND_OK, TUPLES_OK nor the non-fatal warning
status (so FATAL_ERROR, but also EMPTY_QUERY, COPY and BAD_RESPONSE
statuses, raise); a warning is only logged, with the connection status
re-checked (a bad connection status always raises); the raised kind
maps the first two SQLSTATE characters through the class taxonomy with
the DatabaseError fallback for unrecognised classes (including XX,
whose map key is the single character X) and absent or empty codes. -/
theorem c6_classification :
    (∀ (st : PGResStatus) (code : Option String),
      (checkCmdResult true st code = Option.none ↔
        (st = .commandOk ∨ st = .tuplesOk ∨ st = .nonfatalError)) ∧
      checkCmdResult false st code ≠ Option.none) ∧
    checkCmdResult true .fatalError (some "23505") = some .integrityError ∧
    checkCmdResult true .fatalError (some "42601") = some .programmingError ∧
    checkCmdResult true .fatalError (some "0A000") = some .notSupportedError ∧
    checkCmdResult true .fatalError (some "22012") = some .dataError ∧
    checkCmdResult true .fatalError (some "25001") = some .internalError ∧
    checkCmdResult true .fatalError (some "57014") = some .operationalError ∧
    checkCmdResult true .fatalError (some "ZZZZZ") = some .databaseError ∧
    checkCmdResult true .fatalError (some "XX000") = some .databaseError ∧
    checkCmdResult true .fatalError (some "") = some .databaseError ∧
    checkCmdResult true .fatalError Option.none = some .databaseError := by
  refine ⟨fun st code => ⟨?_, ?_⟩, rfl, rfl, rfl, rfl, rfl, rfl, rfl, rfl, rfl, rfl⟩
  · cases st <;> simp [checkCmdResult, checkConnStatus]
  · cases st <;> simp [checkCmdResult, checkConnStatus]

/-- C7: operations on closed handles do not fail with InterfaceError.
Closing a cursor detaches it; fetchone on the closed cursor silently
returns None (no exception at all), execute on it raises AttributeError
(attribute access on the dropped connection reference), and commit or
rollback on a connection whose driver handle was released raise the
base Error from requires_open, which is not the InterfaceError kind. -/
theorem c7_closed_ops :
    (Cursor.closeM curAuto).1 = curClosed ∧
    Cursor.fetchoneM curClosed = (curClosed, .ok Option.none) ∧
    (Cursor.executeM curClosed "SELECT 1" [] emptyRes).2 = some PyErr.attributeError ∧
    Connection.commitM connReleased = (connReleased, some PyErr.dbError) ∧
    Connection.rollbackM connReleased = (connReleased, some PyErr.dbError) ∧
    PyErr.dbError ≠ PyErr.interfaceError :=
  ⟨rfl, rfl, rfl, rfl, rfl, by decide⟩

/-- C3 (counterexample): "SELECT %s, %s" with an empty parameter
sequence — zero supplied against two discovered placeholders — does not
raise the parameter-count error: the count check is skipped for a falsy
parameter sequence and execute fails with IndexError while
interpolating the debug query text (still before any submission: the
cursor state is unchanged). -/
theorem c3_counterexample :
    Cursor.executeM curIdle "SELECT %s, %s" [] emptyRes =
      (curIdle, some PyErr.indexError) ∧
    PyErr.indexError ≠ PyErr.interfaceError :=
  ⟨rfl, by decide⟩

/-- C3 (amended): each unescaped percent-s placeholder is rewritten to
numbered dollar markers in left-to-right order; whenever a nonempty
parameter sequence is supplied whose length differs from the number of
discovered placeholders, execute fails with the parameter-count error
(InterfaceError in the source, named ParameterCountError by the spec)
before any command is submitted — the returned state is untouched; and
with matching parameters the translated text is what gets submitted. -/
theorem c3_placeholders :
    translatePlaceholders "SELECT %s, %s" = "SELECT $1, $2" ∧
    (∀ (c : CursorSt) (sql : String) (p : PyVal) (ps : List PyVal) (res : ResultData),
      (p :: ps).length ≠ (placeholdersOf (translatePlaceholders sql)).length →
      Cursor.executeM c sql (p :: ps) res = (c, some .interfaceError)) ∧
    (Cursor.executeM curAuto "SELECT %s, %s" [.int 1, .str "x"] emptyRes).1.conn =
      some { connAuto with log := [.cmd "SELECT $1, $2"] } := by
  refine ⟨rfl, fun c sql p ps res h => ?_, rfl⟩
  have h2 : ps.length + 1 ≠ (placeholdersOf (translatePlaceholders sql)).length := by
    simpa using h
  simp [Cursor.executeM, h2]

theorem c3_witness :
    ([PyVal.int 1].length ≠ (placeholdersOf (translatePlaceholders "SELECT %s, %s")).length) ∧
    Cursor.executeM curIdle "SELECT %s, %s" [.int 1] emptyRes =
      (curIdle, some .interfaceError) :=
  ⟨by decide,
   c3_placeholders.2.1 curIdle "SELECT %s, %s" (.int 1) [] emptyRes (by decide)⟩

/-- C4: with autocommit off and an idle transaction status, execute
submits an implicit BEGIN to the driver immediately before the
translated statement; commit and rollback submit nothing when the
status is idle, and otherwise submit exactly one COMMIT or ROLLBACK and
leave the transaction status idle. -/
theorem c4_transactions (s : ConnState) (c : CursorSt) (sql : String) (res : ResultData)
    (hconn : c.conn = some s) (hh : s.handle = true)
    (hnum : placeholdersOf (translatePlaceholders sql) = []) :
    (s.autocommit = false → s.txn = .idle →
      (Cursor.executeM c sql [] res).2 = Option.none ∧
      (Cursor.executeM c sql [] res).1.conn =
        some { s with
               txn := driverTxnAfter .intrans (translatePlaceholders sql)
               log := s.log ++ [.cmd "BEGIN", .cmd (translatePlaceholders sql)] }) ∧
    (s.txn = .idle →
      Connection.commitM s = (s, Option.none) ∧
      Connection.rollbackM s = (s, Option.none)) ∧
    (s.txn ≠ .idle →
      Connection.commitM s =
        ({ s with
           txn := .idle
           log := s.log ++ [.cmd "COMMIT"] }, Option.none) ∧
      Connection.rollbackM s =
        ({ s with
           txn := .idle
           log := s.log ++ [.cmd "ROLLBACK"] }, Option.none)) := by
  refine ⟨fun hac htx => ?_, fun htx => ?_, fun htx => ?_⟩
  · constructor
    · simp [Cursor.executeM, executeTail, hconn, hh, hac, htx, hnum]
    · simp [Cursor.executeM, executeTail, hconn, hh, hac, htx, hnum, connCmd,
        driverTxnAfter, setResult, List.append_assoc]
  · simp [Connection.commitM, Connection.rollbackM, hh, htx]
  · simp [Connection.commitM, Connection.rollbackM, hh, htx, connCmd, driverTxnAfter]

theorem c4_witness :
    ((Cursor.executeM curIdle "SELECT 1" [] emptyRes).2 = Option.none ∧
      (Cursor.executeM curIdle "SELECT 1" [] emptyRes).1.conn =
        some { connIdle with
               txn := driverTxnAfter .intrans (translatePlaceholders "SELECT 1")
               log := connIdle.log ++ [.cmd "BEGIN", .cmd (translatePlaceholders "SELECT 1")] }) :=
  (c4_transactions connIdle curIdle "SELECT 1" emptyRes rfl rfl rfl).1 rfl rfl

/-- C5: closing an open connection first closes every registered cursor,
then — exactly when the transaction status is not idle — submits a
ROLLBACK, and only after that finishes (releases) the driver handle:
the event trace always ends with the finish event, preceded by the
rollback when a transaction was open, preceded by the cursor closes. -/
theorem c5_close_order (s : ConnState) (hh : s.handle = true) :
    Connection.closeM s =
      ({ s with
         handle := false
         cursors := []
         txn := .idle
         log := s.log ++ s.cursors.map Event.closedCursor ++
                (if s.txn = .idle then [] else [Event.cmd "ROLLBACK"]) ++ [Event.finish] },
       Option.none) ∧
    (s.txn ≠ .idle →
      (Connection.closeM s).1.log =
        s.log ++ s.cursors.map Event.closedCursor ++
          [Event.cmd "ROLLBACK", Event.finish]) := by
  by_cases h : s.txn = .idle
  · refine ⟨?_, fun hc => absurd h hc⟩
    simp [Connection.closeM, Connection.rollbackM, connCmd, h, hh, driverTxnAfter,
      List.append_assoc]
  · constructor
    · simp [Connection.closeM, Connection.rollbackM, connCmd, h, hh, driverTxnAfter,
        List.append_assoc]
    · intro _
      simp [Connection.closeM, Connection.rollbackM, connCmd, h, hh, driverTxnAfter,
        List.append_assoc]

theorem c5_witness :
    Connection.closeM connInTx =
      ({ connInTx with
         handle := false
         cursors := []
         txn := .idle
         log := connInTx.log ++ connInTx.cursors.map Event.closedCursor ++
                (if connInTx.txn = .idle then [] else [Event.cmd "ROLLBACK"]) ++
                [Event.finish] },
       Option.none) :=
  (c5_close_order connInTx rfl).1

/-- C8: the array codec fails with the unsupported-dimension error (the
assert of ArrayType.parse) for every payload whose ndim header field is
not 1, never truncating silently; and a well-formed one-dimensional
int4 array with elements 1, NULL, 3 — the NULL element flagged by a
length prefix of -1 — decodes to the list [1, None, 3]. -/
theorem c8_array :
    (∀ (value : List Nat) (size : Nat) (ndim flags elemOid : Int)
        (dims : List (Int × Int)) (offs : Nat),
      size ≠ 0 →
      arrayHeader value = some (ndim, flags, elemOid) →
      readDimInfo ndim.toNat 12 value = some (dims, offs) →
      ndim ≠ 1 →
      ArrayType.parse value size = .error .assertionError) ∧
    ArrayType.parse
      [0, 0, 0, 1, 0, 0, 0, 0, 0, 0, 0, 23,
       0, 0, 0, 3, 0, 0, 0, 1,
       0, 0, 0, 4, 0, 0, 0, 1,
       255, 255, 255, 255,
       0, 0, 0, 4, 0, 0, 0, 3] 40 = .ok (.list [.int 1, .none, .int 3]) := by
  refine ⟨fun value size ndim flags elemOid dims offs hsz hhdr hdim hnd => ?_, rfl⟩
  simp [ArrayType.parse, arrayParseBody, hsz, hhdr, hdim, hnd]

theorem c8_witness :
    ArrayType.parse
      [0, 0, 0, 2, 0, 0, 0, 0, 0, 0, 0, 23,
       0, 0, 0, 1, 0, 0, 0, 1, 0, 0, 0, 1, 0, 0, 0, 1] 28 =
      .error .assertionError :=
  c8_array.1 _ 28 2 0 23 [(1, 1), (1, 1)] 28 (by decide) rfl rfl (by decide)

/-- format_type on an int defers to LongType.format and appends the
binary format flag. -/
theorem formatTypeM_int (v : Int) (o : Nat) (bs : List Nat) (n : Nat)
    (h : LongType.format v = .ok (o, bs, n)) :
    formatTypeM (.int v) = .ok (o, some bs, n, 1) := by
  have h0 : formatTypeM (.int v) =
      (match LongType.format v with
        | .ok (oid, bs, n) => .ok (oid, some bs, n, 1)
        | .error e => .error e) := rfl
  rw [h0, h]

/-- C10: parameter encoding of a Python int in the 64-bit range picks
the wire type by bit length — below 16 bits it is sent as OID 21 in two
big-endian octets, below 32 bits as OID 23 in four, otherwise as OID 20
in eight — and in each case the payload is the big-endian
two-complement encoding of the value (reading it back signed gives the
value); format_type extends the triple with binary format flag 1. -/
theorem c10_int_param_encoding (v : Int)
    (h1 : -(2 ^ 63) ≤ v) (h2 : v < 2 ^ 63) :
    (pyBitLength v.natAbs < 16 →
      LongType.format v = .ok (21, beBytes 2 (v % 65536).toNat, 2) ∧
      formatTypeM (.int v) = .ok (21, some (beBytes 2 (v % 65536).toNat), 2, 1) ∧
      unpackSignedBE (beBytes 2 (v % 65536).toNat) = v) ∧
    (16 ≤ pyBitLength v.natAbs → pyBitLength v.natAbs < 32 →
      LongType.format v = .ok (23, beBytes 4 (v % 4294967296).toNat, 4) ∧
      formatTypeM (.int v) = .ok (23, some (beBytes 4 (v % 4294967296).toNat), 4, 1) ∧
      unpackSignedBE (beBytes 4 (v % 4294967296).toNat) = v) ∧
    (32 ≤ pyBitLength v.natAbs →
      LongType.format v = .ok (20, beBytes 8 (v % 18446744073709551616).toNat, 8) ∧
      formatTypeM (.int v) =
        .ok (20, some (beBytes 8 (v % 18446744073709551616).toNat), 8, 1) ∧
      unpackSignedBE (beBytes 8 (v % 18446744073709551616).toNat) = v) := by
  refine ⟨fun hb => ?_, fun hb1 hb2 => ?_, fun hb => ?_⟩
  · have hn : v.natAbs < 32768 := by
      have := (pyBitLength_le v.natAbs 15).mp (by omega)
      norm_num at this
      exact this
    have hr : -32768 ≤ v ∧ v < 32768 := by omega
    have hfmt : LongType.format v = .ok (21, beBytes 2 (v % 65536).toNat, 2) := by
      simp only [LongType.format, hb, if_true, packI16]
      rw [if_pos hr]
    refine ⟨hfmt, formatTypeM_int v _ _ _ hfmt, ?_⟩
    simp only [unpackSignedBE, beBytes, beNat, List.foldl, List.length]
    norm_num
    split <;> omega
  · have hn : v.natAbs < 2147483648 := by
      have := (pyBitLength_le v.natAbs 31).mp (by omega)
      norm_num at this
      exact this
    have hr : -2147483648 ≤ v ∧ v < 2147483648 := by omega
    have hb : ¬ pyBitLength v.natAbs < 16 := by omega
    have hfmt : LongType.format v = .ok (23, beBytes 4 (v % 4294967296).toNat, 4) := by
      simp only [LongType.format, hb, if_false, hb2, if_true, packI32]
      rw [if_pos hr]
    refine ⟨hfmt, formatTypeM_int v _ _ _ hfmt, ?_⟩
    simp only [unpackSignedBE, beBytes, beNat, List.foldl, List.length]
    norm_num
    split <;> omega
  · have hr : -9223372036854775808 ≤ v ∧ v < 9223372036854775808 := by
      constructor <;> omega
    have hc1 : ¬ pyBitLength v.natAbs < 16 := by omega
    have hc2 : ¬ pyBitLength v.natAbs < 32 := by omega
    have hfmt : LongType.format v =
        .ok (20, beBytes 8 (v % 18446744073709551616).toNat, 8) := by
      simp only [LongType.format, hc1, if_false, hc2, packI64]
      rw [if_pos hr]
    refine ⟨hfmt, formatTypeM_int v _ _ _ hfmt, ?_⟩
    simp only [unpackSignedBE, beBytes, beNat, List.foldl, List.length]
    norm_num
    split <;> omega

theorem c10_witness :
    LongType.format 1000 = .ok (21, beBytes 2 ((1000 : Int) % 65536).toNat, 2) ∧
    formatTypeM (.int 1000) =
      .ok (21, some (beBytes 2 ((1000 : Int) % 65536).toNat), 2, 1) ∧
    unpackSignedBE (beBytes 2 ((1000 : Int) % 65536).toNat) = 1000 :=
  (c10_int_param_encoding 1000 (by decide) (by decide)).1 (by decide)

theorem c6_witness :
    checkCmdResult true .commandOk Option.none = Option.none ∧
    checkCmdResult true .fatalError (some "23505") = some .integrityError :=
  ⟨(c6_classification.1 .commandOk Option.none).1.mpr (Or.inl rfl),
   c6_classification.2.1⟩
